import Mathlib

/-!
Shallow embedding of the workflow-correctness core of the
Autonomous Onboarding Orchestrator (TypeScript sources under `src/`).

Conventions of the embedding:
* Times are modelled as integers (milliseconds since the epoch).  Both
  `shouldEscalateTask` and `calculateTaskDueDate` read the wall clock
  (`new Date()`); the embedding passes that instant in explicitly as a
  `now : Int` parameter, so every function is pure and determinism for a
  fixed "now" holds by construction.  `shouldEscalateTask` normalises
  both dates to local midnight before subtracting; the `now` and
  `due_date` arguments of the embedding are those normalised values.
* JavaScript `Math.floor` of a real quotient of integers equals Lean's
  `Int` division `/` (Euclidean division) for a positive divisor.
* JavaScript `Math.round` is `jsRound` below (floor of `q + 1/2`).
* `String.prototype.includes` is `jsIncludes` (substring test).
* TypeScript string-literal unions that are only ever compared for
  equality (`urgencyLevel`, integration `type`, test `test_type`,
  `overall_status`) are modelled as inductive types; free-form strings
  (`task_type`, roles, task `status`, `priority`) stay `String`.
* An integration's `configuration` is a `Record<string, any>` that the
  code only consults through JS truthiness tests `!!config.key`; it is
  modelled by the list of keys whose values are truthy.
* Audit metadata is a JSON object; it is modelled as an association
  list from keys to (string) values — only key presence/identity of
  values matters to the properties below, never the value's own shape.
* Fields that no property touches and that carry only presentation
  data (`details`, random response-time numbers, `next_steps`) are
  omitted from the embedding; everything that feeds a decision is kept.
-/

namespace Orchestrator

/-- Milliseconds in one day: `1000 * 60 * 60 * 24` from the source. -/
def msPerDay : Int := 86400000

/-- JavaScript `s.includes(pat)`: `pat` occurs as a contiguous substring. -/
def jsIncludes (s pat : String) : Bool :=
  s.toList.tails.any (fun t => pat.toList.isPrefixOf t)

/-- JavaScript `Math.round` on a rational: floor of `q + 1/2`
(`Math.round` rounds half-up, and all arguments reached in this code are
nonnegative, where half-up agrees with `⌊q + 1/2⌋`). -/
def jsRound (q : ℚ) : Int := ⌊q + 1 / 2⌋

/-- Urgency levels: the `'low' | 'medium' | 'high' | 'critical'` union. -/
inductive Urgency
  | low
  | medium
  | high
  | critical
deriving DecidableEq, Repr

/-- `EscalationRule` from `src/lib/escalation-logic.ts`. -/
structure EscalationRule where
  taskType : String
  overdueThresholdDays : Int
  escalationChain : List String
  urgencyLevel : Urgency
deriving DecidableEq, Repr

/-- `EscalationResult` from `src/lib/escalation-logic.ts`. -/
structure EscalationResult where
  shouldEscalate : Bool
  escalateTo : List String
  urgencyLevel : Urgency
  escalationReason : String
  daysOverdue : Int
deriving DecidableEq, Repr

/-- The fields of `OnboardingTask` (src/unnamed/part_007) that the
escalation and notification logic reads.  `due_date` is the optional
due date normalised to local midnight, in ms since the epoch. -/
structure OnboardingTask where
  id : String
  onboarding_id : String
  task_type : String
  title : String
  owner_role : String
  assigned_to : Option String
  status : String
  priority : String
  due_date : Option Int
  is_blocker : Bool
  blocker_reason : Option String
deriving DecidableEq, Repr

/-- `Stakeholder` (src/unnamed/part_007): the fields read by the core. -/
structure Stakeholder where
  id : String
  onboarding_id : String
  role : String
  name : String
  email : String
deriving DecidableEq, Repr

/-- `ESCALATION_RULES` from `src/lib/escalation-logic.ts`. -/
def ESCALATION_RULES : List EscalationRule :=
  [ ⟨"kickoff_meeting", 1, ["project_manager", "owner"], .high⟩,
    ⟨"sis_setup", 2, ["technical_lead", "project_manager", "owner"], .critical⟩,
    ⟨"crm_setup", 3, ["technical_lead", "project_manager"], .high⟩,
    ⟨"sftp_setup", 3, ["technical_lead", "project_manager"], .high⟩,
    ⟨"api_setup", 3, ["technical_lead", "project_manager"], .high⟩,
    ⟨"security_review", 2, ["technical_lead", "project_manager", "owner"], .critical⟩,
    ⟨"compliance_check", 2, ["technical_lead", "project_manager", "owner"], .critical⟩,
    ⟨"go_live_preparation", 1, ["project_manager", "owner"], .critical⟩ ]

/-- `DEFAULT_ESCALATION_RULE` from `src/lib/escalation-logic.ts`. -/
def DEFAULT_ESCALATION_RULE : EscalationRule :=
  ⟨"default", 3, ["project_manager", "owner"], .medium⟩

/-- The rule selection in `shouldEscalateTask`:
`ESCALATION_RULES.find(r => r.taskType === task.task_type) || DEFAULT_ESCALATION_RULE`. -/
def escalationRuleFor (taskType : String) : EscalationRule :=
  (ESCALATION_RULES.find? (fun r => r.taskType == taskType)).getD DEFAULT_ESCALATION_RULE

/-- The escalation-level computation inlined in `shouldEscalateTask`
(`src/lib/escalation-logic.ts` lines 124-132). -/
def escalationLevel (rule : EscalationRule) (daysOverdue : Int) : Int :=
  if daysOverdue ≥ rule.overdueThresholdDays * 3 then
    min ((rule.escalationChain.length : Int) - 1) 2
  else if daysOverdue ≥ rule.overdueThresholdDays * 2 then
    min ((rule.escalationChain.length : Int) - 1) 1
  else 0

/-- `shouldEscalateTask` from `src/lib/escalation-logic.ts`.  `now` is the
wall-clock instant normalised to local midnight (see module header). -/
def shouldEscalateTask (now : Int) (task : OnboardingTask) : EscalationResult :=
  match task.due_date with
  | none => ⟨false, [], .low, "No due date set", 0⟩
  | some dueDate =>
    let daysOverdue : Int := (now - dueDate) / msPerDay
    if daysOverdue ≤ 0 then
      ⟨false, [], .low, "Task not overdue", 0⟩
    else
      let rule := escalationRuleFor task.task_type
      if daysOverdue < rule.overdueThresholdDays then
        ⟨false, [], .low,
          s!"Task overdue by {daysOverdue} days, but below threshold of {rule.overdueThresholdDays} days",
          daysOverdue⟩
      else
        let escalateTo := rule.escalationChain.take (escalationLevel rule daysOverdue + 1).toNat
        ⟨true, escalateTo, rule.urgencyLevel,
          s!"Task overdue by {daysOverdue} days (threshold: {rule.overdueThresholdDays} days)",
          daysOverdue⟩

/-- The `escalationMap` of `getBlockerEscalationRecipients` (keyed record
lookup; `none` models a key miss). -/
def blockerEscalationMap (ownerRole : String) : Option (List String) :=
  if ownerRole == "it_contact" then some ["technical_lead", "project_manager"]
  else if ownerRole == "technical_lead" then some ["project_manager", "owner"]
  else if ownerRole == "project_manager" then some ["owner"]
  else if ownerRole == "owner" then some ["project_manager"]
  else none

/-- `getBlockerEscalationRecipients` from `src/lib/escalation-logic.ts`.
The recipient loop (push the email of the first stakeholder found for
each role, skip roles with no stakeholder) is `List.filterMap`. -/
def getBlockerEscalationRecipients (task : OnboardingTask)
    (stakeholders : List Stakeholder) : List String × Urgency :=
  let escalationRoles := (blockerEscalationMap task.owner_role).getD ["project_manager"]
  let escalationRecipients :=
    escalationRoles.filterMap
      (fun role => (stakeholders.find? (fun s => s.role == role)).map (fun s => s.email))
  let urgencyLevel : Urgency :=
    if task.priority == "critical" || jsIncludes task.task_type "security"
        || jsIncludes task.task_type "sis" then
      .critical
    else if task.priority == "high" || jsIncludes task.task_type "setup"
        || jsIncludes task.task_type "go_live" then
      .high
    else if task.priority == "low" then
      .low
    else
      .medium
  (escalationRecipients, urgencyLevel)

/-- `findTasksNeedingEscalation` from `src/lib/escalation-logic.ts`: the
loop that skips completed tasks and pushes every task whose evaluation
says `shouldEscalate` is `List.filterMap` over the task list. -/
def findTasksNeedingEscalation (now : Int) (tasks : List OnboardingTask) :
    List (OnboardingTask × EscalationResult) :=
  tasks.filterMap (fun task =>
    if task.status == "completed" then none
    else
      let escalationResult := shouldEscalateTask now task
      if escalationResult.shouldEscalate then some (task, escalationResult) else none)

/-- `TaskAssignmentRule` from `src/lib/demo-data.ts`. -/
structure TaskAssignmentRule where
  taskType : String
  preferredRoles : List String
  fallbackRole : String
deriving DecidableEq, Repr

/-- `TASK_ASSIGNMENT_RULES` from `src/lib/demo-data.ts`. -/
def TASK_ASSIGNMENT_RULES : List TaskAssignmentRule :=
  [ ⟨"kickoff_meeting", ["project_manager", "owner"], "project_manager"⟩,
    ⟨"requirements_review", ["owner", "project_manager"], "owner"⟩,
    ⟨"timeline_planning", ["project_manager"], "project_manager"⟩,
    ⟨"security_review", ["technical_lead", "it_contact"], "technical_lead"⟩,
    ⟨"compliance_check", ["technical_lead", "owner"], "technical_lead"⟩,
    ⟨"go_live_preparation", ["project_manager", "technical_lead"], "project_manager"⟩ ]

/-- `INTEGRATION_TASK_RULES` from `src/lib/demo-data.ts`
(a `Record<string, TaskAssignmentRule>`, modelled as an association list). -/
def INTEGRATION_TASK_RULES : List (String × TaskAssignmentRule) :=
  [ ("sis_setup", ⟨"sis_setup", ["it_contact", "technical_lead"], "it_contact"⟩),
    ("crm_setup", ⟨"crm_setup", ["it_contact", "technical_lead"], "it_contact"⟩),
    ("sftp_setup", ⟨"sftp_setup", ["technical_lead", "it_contact"], "technical_lead"⟩),
    ("api_setup", ⟨"api_setup", ["technical_lead"], "technical_lead"⟩),
    ("sis_testing", ⟨"sis_testing", ["technical_lead", "it_contact"], "technical_lead"⟩),
    ("crm_testing", ⟨"crm_testing", ["technical_lead", "it_contact"], "technical_lead"⟩),
    ("sftp_testing", ⟨"sftp_testing", ["technical_lead"], "technical_lead"⟩),
    ("api_testing", ⟨"api_testing", ["technical_lead"], "technical_lead"⟩) ]

/-- Result type of `assignTaskToStakeholder`: `{ ownerRole; assignedTo? }`. -/
structure AssignmentOutcome where
  ownerRole : String
  assignedTo : Option String
deriving DecidableEq, Repr

/-- `stakeholders.find(s => s.role === role)`. -/
def findStakeholderByRole (stakeholders : List Stakeholder) (role : String) :
    Option Stakeholder :=
  stakeholders.find? (fun s => s.role == role)

/-- The rule chosen by `assignTaskToStakeholder`: integration-specific
rules are consulted first, then the general table
(`INTEGRATION_TASK_RULES[taskType] || TASK_ASSIGNMENT_RULES.find(...)`). -/
def assignmentRuleFor (taskType : String) : Option TaskAssignmentRule :=
  ((INTEGRATION_TASK_RULES.find? (fun p => p.1 == taskType)).map (fun p => p.2)).orElse
    (fun _ => TASK_ASSIGNMENT_RULES.find? (fun r => r.taskType == taskType))

/-- The `for (const preferredRole of rule.preferredRoles)` loop of
`assignTaskToStakeholder`: first preferred role with a stakeholder wins,
otherwise fall through to the fallback role. -/
def assignLoop (stakeholders : List Stakeholder) (fallbackRole : String) :
    List String → AssignmentOutcome
  | [] =>
    ⟨fallbackRole, (findStakeholderByRole stakeholders fallbackRole).map (fun s => s.email)⟩
  | preferredRole :: rest =>
    match findStakeholderByRole stakeholders preferredRole with
    | some stakeholder => ⟨preferredRole, some stakeholder.email⟩
    | none => assignLoop stakeholders fallbackRole rest

/-- `assignTaskToStakeholder` from `src/lib/demo-data.ts`.  The defensive
branch for a rule whose `preferredRoles` is not an array is unreachable
in the typed model (every `TaskAssignmentRule` carries a list). -/
def assignTaskToStakeholder (taskType : String) (stakeholders : List Stakeholder) :
    AssignmentOutcome :=
  match assignmentRuleFor taskType with
  | none =>
    ⟨"project_manager",
      (findStakeholderByRole stakeholders "project_manager").map (fun s => s.email)⟩
  | some rule => assignLoop stakeholders rule.fallbackRole rule.preferredRoles

/-- `calculateTaskDueDate` from `src/lib/demo-data.ts`.  `now` is the
invocation instant in ms; `goLiveDate` is the parsed go-live date in ms.
Returns the due instant `now + dueDays * msPerDay`. -/
def calculateTaskDueDate (now : Int) (taskType : String) (goLiveDate : Option Int)
    (customerSize : Option String) : Int :=
  let dueDays : Int :=
    if jsIncludes taskType "kickoff" then 1
    else if jsIncludes taskType "requirements" then 2
    else if jsIncludes taskType "setup" then
      if jsIncludes taskType "sis" then 3 else 5
    else if jsIncludes taskType "testing" then
      if jsIncludes taskType "sis" then 5 else 7
    else if jsIncludes taskType "security" || jsIncludes taskType "compliance" then
      if customerSize == some "enterprise" then 5 else 7
    else if jsIncludes taskType "go_live" then
      match goLiveDate with
      | some goLive =>
        let daysUntilGoLive := (goLive - now) / msPerDay
        max 1 (daysUntilGoLive - 2)
      | none => 14
    else 7
  now + dueDays * msPerDay

/-- Integration `type` union: `'SIS' | 'CRM' | 'SFTP' | 'API' | 'other'`. -/
inductive IntegrationType
  | SIS
  | CRM
  | SFTP
  | API
  | other
deriving DecidableEq, Repr

/-- `test_type` union of `IntegrationTestResult`. -/
inductive TestType
  | connectivity
  | authentication
  | data_flow
  | configuration
deriving DecidableEq, Repr

/-- `overall_status` union of `IntegrationValidationResult`. -/
inductive OverallStatus
  | passed
  | failed
  | warning
deriving DecidableEq, Repr

/-- `IntegrationTestResult` from `src/lib/integration-lifecycle.ts`:
the decision-relevant fields (the `details` bag and the timestamp are
presentation-only and omitted, see module header). -/
structure IntegrationTestResult where
  success : Bool
  message : String
  test_type : TestType
deriving DecidableEq, Repr

/-- The fields of `Integration` (src/unnamed/part_007) that
`runIntegrationTests` reads.  `configuration` is the list of keys whose
values are JS-truthy (see module header). -/
structure Integration where
  id : String
  onboarding_id : String
  type : IntegrationType
  name : String
  configuration : List String
deriving DecidableEq, Repr

/-- `IntegrationValidationResult` from `src/lib/integration-lifecycle.ts`
(without the presentation-only `next_steps` list). -/
structure IntegrationValidationResult where
  integration_id : String
  overall_status : OverallStatus
  test_results : List IntegrationTestResult
  completion_percentage : Int
deriving DecidableEq, Repr

/-- `IntegrationTester.testSISIntegration`: connectivity and data-flow
are simulated successes; authentication succeeds iff `!!config.api_key`. -/
def testSISIntegration (config : List String) : List IntegrationTestResult :=
  [ ⟨true, "SIS endpoint connectivity verified", .connectivity⟩,
    ⟨config.contains "api_key",
      if config.contains "api_key" then "SIS authentication successful"
      else "SIS API key missing or invalid", .authentication⟩,
    ⟨true, "SIS data flow test completed successfully", .data_flow⟩ ]

/-- `IntegrationTester.testCRMIntegration`: authentication succeeds iff
`!!(config.client_id && config.client_secret)`. -/
def testCRMIntegration (config : List String) : List IntegrationTestResult :=
  [ ⟨true, "CRM endpoint connectivity verified", .connectivity⟩,
    ⟨config.contains "client_id" && config.contains "client_secret",
      if config.contains "client_id" && config.contains "client_secret" then
        "CRM OAuth authentication successful"
      else "CRM OAuth credentials missing or invalid", .authentication⟩,
    ⟨true, "CRM data synchronization test completed", .data_flow⟩ ]

/-- `IntegrationTester.testSFTPIntegration`: authentication succeeds iff
`!!(config.username && (config.password || config.private_key))`. -/
def testSFTPIntegration (config : List String) : List IntegrationTestResult :=
  [ ⟨true, "SFTP server connectivity verified", .connectivity⟩,
    ⟨config.contains "username" && (config.contains "password" || config.contains "private_key"),
      if config.contains "username" && (config.contains "password" || config.contains "private_key") then
        "SFTP authentication successful"
      else "SFTP credentials missing (username and password/key required)", .authentication⟩,
    ⟨true, "SFTP file transfer test completed", .data_flow⟩ ]

/-- `IntegrationTester.testAPIIntegration`: authentication succeeds iff
`!!(config.api_key || config.bearer_token)`; the third test is a
configuration check instead of a data-flow check. -/
def testAPIIntegration (config : List String) : List IntegrationTestResult :=
  [ ⟨true, "API endpoint connectivity verified", .connectivity⟩,
    ⟨config.contains "api_key" || config.contains "bearer_token",
      if config.contains "api_key" || config.contains "bearer_token" then
        "API authentication successful"
      else "API authentication credentials missing", .authentication⟩,
    ⟨true, "API configuration validation completed", .configuration⟩ ]

/-- The aggregation tail of `IntegrationTester.runIntegrationTests`
(lines 333-345): completion percentage is `Math.round` of the success
ratio times 100 (0 for an empty battery), and the status ladder is
`100 → passed`, `≥ 70 → warning`, else `failed`. -/
def aggregateValidation (integrationId : String)
    (testResults : List IntegrationTestResult) : IntegrationValidationResult :=
  let successfulTests := (testResults.filter (fun t => t.success)).length
  let totalTests := testResults.length
  let completionPercentage : Int :=
    if totalTests > 0 then
      jsRound ((successfulTests : ℚ) / (totalTests : ℚ) * 100)
    else 0
  let overallStatus : OverallStatus :=
    if completionPercentage = 100 then .passed
    else if completionPercentage ≥ 70 then .warning
    else .failed
  ⟨integrationId, overallStatus, testResults, completionPercentage⟩

/-- The type dispatch (`switch (integration.type)`) at the head of
`IntegrationTester.runIntegrationTests`. -/
def integrationTestBattery (integration : Integration) : List IntegrationTestResult :=
  match integration.type with
  | .SIS => testSISIntegration integration.configuration
  | .CRM => testCRMIntegration integration.configuration
  | .SFTP => testSFTPIntegration integration.configuration
  | .API => testAPIIntegration integration.configuration
  | .other => [⟨true, "Generic integration test for other", .configuration⟩]

/-- `IntegrationTester.runIntegrationTests`: dispatch on the integration
type, then aggregate. -/
def runIntegrationTests (integration : Integration) : IntegrationValidationResult :=
  aggregateValidation integration.id (integrationTestBattery integration)

/-- Audit metadata: a JSON object, modelled as an association list from
key to value (values abstracted to strings, see module header). -/
def AuditMetadata := List (String × String)
deriving instance DecidableEq, Repr for AuditMetadata

/-- `CreateAuditRecord` from the audit-trail module (src/unnamed/part_006):
the caller's request, with `metadata ?? {}` already defaulted. -/
structure CreateAuditRecord where
  entity_type : String
  entity_id : String
  event_type : String
  metadata : AuditMetadata
deriving DecidableEq, Repr

/-- The row handed to the `events_audit` insert. -/
structure EventsAuditInsert where
  entity_type : String
  entity_id : String
  event_type : String
  metadata : AuditMetadata
deriving DecidableEq, Repr

/-- The metadata enhancement of `createAuditRecord` /
`createAuditRecords`: the JS spread
`{...record.metadata, timestamp, system_version, environment}` keeps
every caller key except the three overridden ones and sets those three.
The three system entries are placed first so that an association-list
lookup sees exactly the spread's key-value map. -/
def enhanceAuditMetadata (nowIso ver env : String) (m : AuditMetadata) : AuditMetadata :=
  [("timestamp", nowIso), ("system_version", ver), ("environment", env)] ++
    m.filter (fun kv =>
      kv.1 != "timestamp" && kv.1 != "system_version" && kv.1 != "environment")

/-- `createAuditRecord` (src/unnamed/part_006 lines 159-191): the row it
inserts.  `nowIso` is `new Date().toISOString()`, `ver` is
`process.env.npm_package_version || 'unknown'`, `env` is
`process.env.NODE_ENV || 'development'`.  Persistence success/failure is
the collaborator's business; the embedding captures the inserted row. -/
def createAuditRecord (nowIso ver env : String) (record : CreateAuditRecord) :
    EventsAuditInsert :=
  ⟨record.entity_type, record.entity_id, record.event_type,
    enhanceAuditMetadata nowIso ver env record.metadata⟩

/-- `createAuditRecords` (src/unnamed/part_006 lines 196-225): maps the
same enhancement over the batch and inserts the result as one call. -/
def createAuditRecords (nowIso ver env : String) (records : List CreateAuditRecord) :
    List EventsAuditInsert :=
  records.map (fun record =>
    ⟨record.entity_type, record.entity_id, record.event_type,
      enhanceAuditMetadata nowIso ver env record.metadata⟩)

/-- The query parameters of `GET /api/audit` (src/unnamed/part_003) that
feed the pagination filters.  `limit`/`offset` are the `parseInt` values
of the corresponding parameters when supplied (`none` = absent or empty;
a non-numeric parameter parses to NaN, which fails every bound check
exactly as an out-of-range number does). -/
structure AuditGetParams where
  limit : Option Int
  offset : Option Int
deriving DecidableEq, Repr

/-- The pagination part of the `AuditQueryFilters` object the route
builds before querying. -/
structure AuditPaginationFilters where
  limit : Option Int
  offset : Option Int
deriving DecidableEq, Repr

/-- The response of the audit GET route, as far as bound handling is
concerned: the handler either proceeds to query with the filters it
built (`ok`) or returns a 500 — and the 500 branch is reached only by
exceptions thrown from the query collaborator, never by a bound check. -/
inductive AuditGetResponse
  | ok (filters : AuditPaginationFilters)
  | serverError
deriving DecidableEq, Repr

/-- The filter construction of `GET /api/audit` for `limit`/`offset`
(src/unnamed/part_003 lines 69-81): an in-range value is applied, an
out-of-range value leaves the filter unset. -/
def auditGetFilters (p : AuditGetParams) : AuditPaginationFilters :=
  let limitFilter : Option Int :=
    match p.limit with
    | some l => if l > 0 ∧ l ≤ 1000 then some l else none
    | none => none
  let offsetFilter : Option Int :=
    match p.offset with
    | some o => if o ≥ 0 then some o else none
    | none => none
  ⟨limitFilter, offsetFilter⟩

/-- The audit GET route: it always proceeds to the query with the
filters it built — there is no rejection branch for out-of-range
`limit`/`offset`. -/
def auditGET (p : AuditGetParams) : AuditGetResponse :=
  .ok (auditGetFilters p)

/-! ## Helper lemmas -/

/-- Every rule `shouldEscalateTask` can select is either a table entry or
the default rule. -/
lemma escalationRuleFor_mem (taskType : String) :
    escalationRuleFor taskType ∈ ESCALATION_RULES ∨
      escalationRuleFor taskType = DEFAULT_ESCALATION_RULE := by
  unfold escalationRuleFor
  cases h : ESCALATION_RULES.find? (fun r => r.taskType == taskType) with
  | none => right; rfl
  | some r =>
    left
    simpa using List.mem_of_find?_eq_some h

/-- Every selectable escalation rule has a positive threshold and a chain
of at least two roles. -/
lemma escalationRuleFor_wf (taskType : String) :
    1 ≤ (escalationRuleFor taskType).overdueThresholdDays ∧
      2 ≤ (escalationRuleFor taskType).escalationChain.length := by
  rcases escalationRuleFor_mem taskType with h | h
  · have hall : ∀ r ∈ ESCALATION_RULES,
        1 ≤ r.overdueThresholdDays ∧ 2 ≤ r.escalationChain.length := by decide
    exact hall _ h
  · rw [h]; decide

/-- Every selectable escalation rule with threshold 3 has a chain of
exactly two roles (`crm_setup`, `sftp_setup`, `api_setup`, default). -/
lemma escalationRuleFor_threshold3 (taskType : String)
    (h3 : (escalationRuleFor taskType).overdueThresholdDays = 3) :
    (escalationRuleFor taskType).escalationChain.length = 2 := by
  rcases escalationRuleFor_mem taskType with h | h
  · have hall : ∀ r ∈ ESCALATION_RULES,
        r.overdueThresholdDays = 3 → r.escalationChain.length = 2 := by decide
    exact hall _ h h3
  · rw [h]; decide

/-! ## C5 -/

/-- C5: `findTasksNeedingEscalation` never returns a task with status
`completed` (completed tasks are skipped before evaluation), and every
returned pair carries `shouldEscalate = true`. -/
theorem findTasksNeedingEscalation_no_completed (now : Int)
    (tasks : List OnboardingTask) (p : OnboardingTask × EscalationResult)
    (hp : p ∈ findTasksNeedingEscalation now tasks) :
    p.1.status ≠ "completed" ∧ p.2.shouldEscalate = true := by
  simp only [findTasksNeedingEscalation, List.mem_filterMap] at hp
  obtain ⟨task, -, htask⟩ := hp
  split_ifs at htask with hcompleted hshould
  obtain rfl := Option.some.inj htask
  exact ⟨by simpa using hcompleted, hshould⟩

/-- A concrete overdue, non-completed task used by several witnesses:
a `crm_setup` task due at the epoch, ten days before `sampleNow`. -/
def sampleOverdueTask : OnboardingTask :=
  ⟨"task-1", "onboarding-1", "crm_setup", "Configure Salesforce CRM",
    "technical_lead", none, "pending", "high", some 0, false, none⟩

/-- Ten days after the epoch, in ms. -/
def sampleNow : Int := 10 * msPerDay

theorem findTasksNeedingEscalation_no_completed_witness :
    (sampleOverdueTask, shouldEscalateTask sampleNow sampleOverdueTask).1.status ≠ "completed" ∧
    (sampleOverdueTask, shouldEscalateTask sampleNow sampleOverdueTask).2.shouldEscalate = true :=
  findTasksNeedingEscalation_no_completed sampleNow [sampleOverdueTask]
    (sampleOverdueTask, shouldEscalateTask sampleNow sampleOverdueTask) (by decide)

/-! ## C1 -/

/-- C1: a task due exactly ten days ago, under a selectable rule with
`overdueThresholdDays = 3` and a chain of at least two roles, escalates
with `escalateTo` the two-element prefix of the chain (tier index 1).
All such rules have a chain of exactly two roles, so the clamped deepest
tier `min(length − 1, 2)` coincides with the middle tier index 1. -/
theorem shouldEscalateTask_ten_days_threshold3 (now : Int) (task : OnboardingTask)
    (d : Int) (hdue : task.due_date = some d) (h10 : now - d = 10 * msPerDay)
    (hth : (escalationRuleFor task.task_type).overdueThresholdDays = 3)
    (hlen : 2 ≤ (escalationRuleFor task.task_type).escalationChain.length) :
    (shouldEscalateTask now task).shouldEscalate = true ∧
    (shouldEscalateTask now task).escalateTo =
      (escalationRuleFor task.task_type).escalationChain.take 2 := by
  have hlen2 : (escalationRuleFor task.task_type).escalationChain.length = 2 :=
    escalationRuleFor_threshold3 task.task_type hth
  have hdays : (now - d) / msPerDay = 10 := by
    rw [h10]
    exact Int.mul_ediv_cancel 10 (by norm_num [msPerDay])
  have hlevel : escalationLevel (escalationRuleFor task.task_type) 10 = 1 := by
    unfold escalationLevel
    rw [hth, hlen2]
    norm_num
  simp only [shouldEscalateTask, hdue, hdays, hth, hlevel]
  norm_num
  rfl

theorem shouldEscalateTask_ten_days_threshold3_witness :
    (shouldEscalateTask sampleNow sampleOverdueTask).shouldEscalate = true ∧
    (shouldEscalateTask sampleNow sampleOverdueTask).escalateTo =
      (escalationRuleFor sampleOverdueTask.task_type).escalationChain.take 2 :=
  shouldEscalateTask_ten_days_threshold3 sampleNow sampleOverdueTask 0 rfl
    (by decide) (by decide) (by decide)

/-! ## C6 -/

/-- The escalation level is nonnegative for chains of length ≥ 2. -/
lemma escalationLevel_nonneg (rule : EscalationRule)
    (hlen : 2 ≤ rule.escalationChain.length) (daysOverdue : Int) :
    0 ≤ escalationLevel rule daysOverdue := by
  have hL : (2 : Int) ≤ (rule.escalationChain.length : Int) := by exact_mod_cast hlen
  unfold escalationLevel
  simp only [min_def]
  split_ifs <;> omega

/-- The escalation level is monotone in `daysOverdue` for a fixed rule
with a chain of length ≥ 2. -/
lemma escalationLevel_mono (rule : EscalationRule)
    (hlen : 2 ≤ rule.escalationChain.length) {d1 d2 : Int} (h : d1 ≤ d2) :
    escalationLevel rule d1 ≤ escalationLevel rule d2 := by
  have hL : (2 : Int) ≤ (rule.escalationChain.length : Int) := by exact_mod_cast hlen
  unfold escalationLevel
  simp only [min_def]
  split_ifs <;> omega

/-- When `shouldEscalateTask` decides to escalate, its `escalateTo` is a
chain prefix whose length is governed by the escalation level. -/
lemma shouldEscalateTask_escalateTo_of_true (now : Int) (task : OnboardingTask)
    (d : Int) (hdue : task.due_date = some d)
    (h : (shouldEscalateTask now task).shouldEscalate = true) :
    (shouldEscalateTask now task).escalateTo =
      (escalationRuleFor task.task_type).escalationChain.take
        (escalationLevel (escalationRuleFor task.task_type) ((now - d) / msPerDay) + 1).toNat := by
  simp only [shouldEscalateTask, hdue] at h ⊢
  split_ifs at h ⊢
  rfl

/-- C6: for a fixed task (hence a fixed rule), moving the evaluation
instant later never shrinks the escalation tier once both instants
escalate: the `escalateTo` prefix at the later instant is at least as
long. -/
theorem escalation_tier_monotone (task : OnboardingTask) (now1 now2 : Int)
    (h12 : now1 ≤ now2)
    (h1 : (shouldEscalateTask now1 task).shouldEscalate = true)
    (h2 : (shouldEscalateTask now2 task).shouldEscalate = true) :
    (shouldEscalateTask now1 task).escalateTo.length ≤
      (shouldEscalateTask now2 task).escalateTo.length := by
  cases hdue : task.due_date with
  | none => rw [shouldEscalateTask, hdue] at h1; exact absurd h1 (by simp)
  | some d =>
    have hlen := (escalationRuleFor_wf task.task_type).2
    have hdays : (now1 - d) / msPerDay ≤ (now2 - d) / msPerDay :=
      Int.ediv_le_ediv (by norm_num [msPerDay]) (by omega)
    rw [shouldEscalateTask_escalateTo_of_true now1 task d hdue h1,
      shouldEscalateTask_escalateTo_of_true now2 task d hdue h2]
    have hmono := escalationLevel_mono (escalationRuleFor task.task_type) hlen hdays
    have hnn := escalationLevel_nonneg (escalationRuleFor task.task_type) hlen
      ((now1 - d) / msPerDay)
    simp only [List.length_take]
    exact min_le_min (by omega) le_rfl

theorem escalation_tier_monotone_witness :
    (shouldEscalateTask sampleNow sampleOverdueTask).escalateTo.length ≤
      (shouldEscalateTask (sampleNow + msPerDay) sampleOverdueTask).escalateTo.length :=
  escalation_tier_monotone sampleOverdueTask sampleNow (sampleNow + msPerDay)
    (by norm_num [sampleNow, msPerDay]) (by decide) (by decide)

/-! ## C7 -/

/-- C7: a blocked `sis_setup` task owned by `it_contact`, with a
technical lead and a project manager among the stakeholders, escalates
to exactly those two contacts (technical lead first) at critical
urgency (`'sis_setup'.includes('sis')` forces `critical`). -/
theorem getBlockerEscalationRecipients_sis_setup (task : OnboardingTask)
    (stakeholders : List Stakeholder) (tl pm : Stakeholder)
    (htype : task.task_type = "sis_setup") (howner : task.owner_role = "it_contact")
    (hblocker : task.is_blocker = true)
    (htl : stakeholders.find? (fun s => s.role == "technical_lead") = some tl)
    (hpm : stakeholders.find? (fun s => s.role == "project_manager") = some pm) :
    getBlockerEscalationRecipients task stakeholders =
      ([tl.email, pm.email], Urgency.critical) := by
  have hsis : jsIncludes "sis_setup" "sis" = true := by decide
  simp only [getBlockerEscalationRecipients, howner, htype, blockerEscalationMap,
    hsis, Bool.or_true, Bool.true_or, if_true]
  norm_num [List.filterMap, htl, hpm]

/-- A technical lead and a project manager used by concrete witnesses. -/
def sampleTechLead : Stakeholder :=
  ⟨"stakeholder-1", "onboarding-1", "technical_lead", "David Kim", "david.kim@example.com"⟩

def sampleProjectManager : Stakeholder :=
  ⟨"stakeholder-2", "onboarding-1", "project_manager", "Lisa Rodriguez", "lisa.r@example.com"⟩

/-- A blocked `sis_setup` task owned by `it_contact`. -/
def sampleBlockedSisTask : OnboardingTask :=
  ⟨"task-2", "onboarding-1", "sis_setup", "Configure PowerSchool SIS",
    "it_contact", none, "blocked", "high", some 0, true,
    some "Network firewall blocking API access"⟩

theorem getBlockerEscalationRecipients_sis_setup_witness :
    getBlockerEscalationRecipients sampleBlockedSisTask
        [sampleTechLead, sampleProjectManager] =
      ([sampleTechLead.email, sampleProjectManager.email], Urgency.critical) :=
  getBlockerEscalationRecipients_sis_setup sampleBlockedSisTask
    [sampleTechLead, sampleProjectManager] sampleTechLead sampleProjectManager
    rfl rfl rfl (by decide) (by decide)

/-! ## C4 -/

/-- Modelled from the spec's words for the refinement comparison
(§4.1 / C4): look up the rule for the task type (integration rules take
precedence; absent rule defaults to owner role `project_manager` with a
project-manager stakeholder's email if any); take the first preferred
role for which some stakeholder exists, paired with that (first such)
stakeholder's email; otherwise the fallback role, paired with a
stakeholder of that role when one exists. -/
def assignTaskSpec (taskType : String) (stakeholders : List Stakeholder) :
    AssignmentOutcome :=
  match assignmentRuleFor taskType with
  | none =>
    ⟨"project_manager",
      (findStakeholderByRole stakeholders "project_manager").map (fun s => s.email)⟩
  | some rule =>
    match rule.preferredRoles.find? (fun role => stakeholders.any (fun s => s.role == role)) with
    | some role =>
      ⟨role, (findStakeholderByRole stakeholders role).map (fun s => s.email)⟩
    | none =>
      ⟨rule.fallbackRole,
        (findStakeholderByRole stakeholders rule.fallbackRole).map (fun s => s.email)⟩

/-- `stakeholders.any (s.role == role)` agrees with the `find?`-based
existence test. -/
lemma any_role_eq_isSome (stakeholders : List Stakeholder) (role : String) :
    stakeholders.any (fun s => s.role == role) =
      (findStakeholderByRole stakeholders role).isSome := by
  induction stakeholders with
  | nil => rfl
  | cons s rest ih =>
    unfold findStakeholderByRole at ih ⊢
    cases h : (s.role == role) <;>
      simp [List.any_cons, List.find?_cons, h, ih]

/-- The preferred-role loop agrees with the spec-side `find?` phrasing. -/
lemma assignLoop_eq_find (stakeholders : List Stakeholder) (fallbackRole : String) :
    ∀ roles : List String,
      assignLoop stakeholders fallbackRole roles =
        match roles.find? (fun role => stakeholders.any (fun s => s.role == role)) with
        | some role =>
          ⟨role, (findStakeholderByRole stakeholders role).map (fun s => s.email)⟩
        | none =>
          ⟨fallbackRole,
            (findStakeholderByRole stakeholders fallbackRole).map (fun s => s.email)⟩
  | [] => rfl
  | role :: rest => by
    rw [assignLoop]
    cases h : findStakeholderByRole stakeholders role with
    | none =>
      rw [assignLoop_eq_find stakeholders fallbackRole rest]
      have : stakeholders.any (fun s => s.role == role) = false := by
        rw [any_role_eq_isSome, h]; rfl
      simp [List.find?_cons, this]
    | some s =>
      have : stakeholders.any (fun s => s.role == role) = true := by
        rw [any_role_eq_isSome, h]; rfl
      simp [List.find?_cons, this, h]

/-- C4: `assignTaskToStakeholder` coincides with the spec's description
on every task type and stakeholder list. -/
theorem assignTaskToStakeholder_eq_spec (taskType : String)
    (stakeholders : List Stakeholder) :
    assignTaskToStakeholder taskType stakeholders = assignTaskSpec taskType stakeholders := by
  unfold assignTaskToStakeholder assignTaskSpec
  cases assignmentRuleFor taskType with
  | none => rfl
  | some rule => exact assignLoop_eq_find stakeholders rule.fallbackRole rule.preferredRoles

/-! ## C8 -/

/-- Every branch of the due-days computation yields at least one day. -/
lemma calculateTaskDueDate_lower (now : Int) (taskType : String)
    (goLiveDate : Option Int) (customerSize : Option String) :
    now + msPerDay ≤ calculateTaskDueDate now taskType goLiveDate customerSize := by
  unfold calculateTaskDueDate
  have hms : (0 : Int) < msPerDay := by norm_num [msPerDay]
  have key : ∀ dueDays : Int, 1 ≤ dueDays → now + msPerDay ≤ now + dueDays * msPerDay := by
    intro dueDays h
    have : msPerDay ≤ dueDays * msPerDay := le_mul_of_one_le_left (le_of_lt hms) h
    omega
  split_ifs <;> apply key
  all_goals try norm_num
  cases goLiveDate with
  | none => norm_num
  | some goLive => exact le_max_left 1 _

/-- C8: `calculateTaskDueDate` always returns an instant strictly after
`now` (in every branch the day offset is at least 1 — in particular the
go-live branch clamps to a minimum of one day even for a past go-live
date), and a go-live-classified task type with no go-live date supplied
falls back to 14 days from now.  Determinism for a fixed `now` holds by
construction: the embedding is a pure function of
`(now, taskType, goLiveDate, customerSize)`. -/
theorem calculateTaskDueDate_future (now : Int) (taskType : String)
    (goLiveDate : Option Int) (customerSize : Option String) :
    now < calculateTaskDueDate now taskType goLiveDate customerSize ∧
    (jsIncludes taskType "go_live" = true →
      jsIncludes taskType "kickoff" = false →
      jsIncludes taskType "requirements" = false →
      jsIncludes taskType "setup" = false →
      jsIncludes taskType "testing" = false →
      jsIncludes taskType "security" = false →
      jsIncludes taskType "compliance" = false →
      goLiveDate = none →
      calculateTaskDueDate now taskType goLiveDate customerSize = now + 14 * msPerDay) := by
  constructor
  · have := calculateTaskDueDate_lower now taskType goLiveDate customerSize
    have : (0 : Int) < msPerDay := by norm_num [msPerDay]
    omega
  · intro hgl hk hr hs ht hsec hc hnone
    subst hnone
    simp [calculateTaskDueDate, hgl, hk, hr, hs, ht, hsec, hc]

theorem calculateTaskDueDate_future_witness :
    (0 : Int) < calculateTaskDueDate 0 "go_live_preparation" none none ∧
    calculateTaskDueDate 0 "go_live_preparation" none none = 0 + 14 * msPerDay :=
  ⟨(calculateTaskDueDate_future 0 "go_live_preparation" none none).1,
    (calculateTaskDueDate_future 0 "go_live_preparation" none none).2
      (by decide) (by decide) (by decide) (by decide) (by decide) (by decide)
      (by decide) rfl⟩

/-! ## C3 -/

/-- `Math.round` never exceeds 100 on a ratio bounded by 100. -/
lemma jsRound_le_100 {q : ℚ} (h : q ≤ 100) : jsRound q ≤ 100 := by
  unfold jsRound
  have h1 : q + 1 / 2 ≤ 100 + 1 / 2 := by linarith
  calc ⌊q + 1 / 2⌋ ≤ ⌊(100 : ℚ) + 1 / 2⌋ := Int.floor_le_floor h1
    _ = 100 := by
        rw [Int.floor_eq_iff]
        norm_num

/-- The completion percentage computed by `aggregateValidation` is at
most 100. -/
lemma aggregateValidation_cp_le_100 (integrationId : String)
    (testResults : List IntegrationTestResult) :
    (aggregateValidation integrationId testResults).completion_percentage ≤ 100 := by
  simp only [aggregateValidation]
  split_ifs with hpos
  · apply jsRound_le_100
    have hle : ((testResults.filter (fun t => t.success)).length : ℚ) ≤
        (testResults.length : ℚ) := by
      exact_mod_cast List.length_filter_le _ _
    have hlt : (0 : ℚ) < (testResults.length : ℚ) := by exact_mod_cast hpos
    rw [div_mul_eq_mul_div, div_le_iff hlt]
    nlinarith
  · norm_num

/-- C3: in every `ValidationResult` produced by `runIntegrationTests`,
the completion percentage is `Math.round(100 × passed/total)` over its
own `test_results` (0 when total = 0), and the overall status is
`passed` iff the percentage is 100, `warning` iff it lies in [70, 100),
and `failed` iff it is below 70. -/
theorem runIntegrationTests_percentage_consistency (integration : Integration) :
    ((runIntegrationTests integration).completion_percentage =
      if 0 < (runIntegrationTests integration).test_results.length then
        jsRound (100 *
          (((runIntegrationTests integration).test_results.filter (fun t => t.success)).length : ℚ) /
          ((runIntegrationTests integration).test_results.length : ℚ))
      else 0) ∧
    ((runIntegrationTests integration).overall_status = OverallStatus.passed ↔
      (runIntegrationTests integration).completion_percentage = 100) ∧
    ((runIntegrationTests integration).overall_status = OverallStatus.warning ↔
      70 ≤ (runIntegrationTests integration).completion_percentage ∧
        (runIntegrationTests integration).completion_percentage < 100) ∧
    ((runIntegrationTests integration).overall_status = OverallStatus.failed ↔
      (runIntegrationTests integration).completion_percentage < 70) := by
  have hres : runIntegrationTests integration =
      aggregateValidation integration.id (integrationTestBattery integration) := rfl
  rw [hres]
  have hle := aggregateValidation_cp_le_100 integration.id
    (integrationTestBattery integration)
  simp only [aggregateValidation] at hle ⊢
  refine ⟨?_, ?_, ?_, ?_⟩
  · split_ifs with h
    · congr 1
      ring
    · rfl
  all_goals split_ifs <;> simp_all <;> omega

/-! ## C10 -/

/-- The credential requirements C10 lists per integration type. -/
def requiredCredentialsPresent : IntegrationType → List String → Bool
  | .SIS, config => config.contains "api_key"
  | .CRM, config => config.contains "client_id" && config.contains "client_secret"
  | .SFTP, config =>
    config.contains "username" && (config.contains "password" || config.contains "private_key")
  | .API, config => config.contains "api_key" || config.contains "bearer_token"
  | .other, _ => true

/-- `Math.round(2/3 × 100) = 67` (in the form `200/3` that the
normaliser produces). -/
lemma jsRound_two_thirds : jsRound ((200 : ℚ) / 3) = 67 := by
  unfold jsRound
  rw [Int.floor_eq_iff]
  norm_num

/-- `Math.round(100) = 100`. -/
lemma jsRound_hundred : jsRound (100 : ℚ) = 100 := by
  unfold jsRound
  rw [Int.floor_eq_iff]
  norm_num

/-- The aggregation verdict on a three-test battery whose first and
third tests succeed and whose second is the authentication test with
outcome `b`: percentage 67 or 100, never `warning`, `passed` iff `b`. -/
lemma aggregateValidation_three (id : String) (b : Bool) (m1 m2 m3 : String)
    (t1 t3 : TestType) :
    (∀ tr ∈ (aggregateValidation id
        [⟨true, m1, t1⟩, ⟨b, m2, .authentication⟩, ⟨true, m3, t3⟩]).test_results,
      tr.test_type ≠ TestType.authentication → tr.success = true) ∧
    (aggregateValidation id
        [⟨true, m1, t1⟩, ⟨b, m2, .authentication⟩, ⟨true, m3, t3⟩]).test_results.length = 3 ∧
    ((aggregateValidation id
        [⟨true, m1, t1⟩, ⟨b, m2, .authentication⟩, ⟨true, m3, t3⟩]).completion_percentage = 67 ∨
      (aggregateValidation id
        [⟨true, m1, t1⟩, ⟨b, m2, .authentication⟩, ⟨true, m3, t3⟩]).completion_percentage = 100) ∧
    (aggregateValidation id
        [⟨true, m1, t1⟩, ⟨b, m2, .authentication⟩, ⟨true, m3, t3⟩]).overall_status ≠
      OverallStatus.warning ∧
    ((aggregateValidation id
        [⟨true, m1, t1⟩, ⟨b, m2, .authentication⟩, ⟨true, m3, t3⟩]).overall_status =
        OverallStatus.passed ↔ b = true) := by
  cases b with
  | true =>
    norm_num [aggregateValidation, List.filter, jsRound_hundred, List.mem_cons]
    decide
  | false =>
    norm_num [aggregateValidation, List.filter, jsRound_two_thirds, List.mem_cons]
    decide

/-- C10: for the four concrete integration types the battery is exactly
three tests whose non-authentication members always succeed, so the
completion percentage is 67 or 100, the overall status is never
`warning`, and it is `passed` exactly when the type's required
credentials are present in the configuration. -/
theorem runIntegrationTests_auth_gate (integration : Integration)
    (hty : integration.type ≠ IntegrationType.other) :
    (∀ tr ∈ (runIntegrationTests integration).test_results,
      tr.test_type ≠ TestType.authentication → tr.success = true) ∧
    (runIntegrationTests integration).test_results.length = 3 ∧
    ((runIntegrationTests integration).completion_percentage = 67 ∨
      (runIntegrationTests integration).completion_percentage = 100) ∧
    (runIntegrationTests integration).overall_status ≠ OverallStatus.warning ∧
    ((runIntegrationTests integration).overall_status = OverallStatus.passed ↔
      requiredCredentialsPresent integration.type integration.configuration = true) := by
  obtain ⟨id, onb, ty, name, config⟩ := integration
  cases ty with
  | SIS =>
    exact aggregateValidation_three id (config.contains "api_key")
      "SIS endpoint connectivity verified"
      (if config.contains "api_key" then "SIS authentication successful"
        else "SIS API key missing or invalid")
      "SIS data flow test completed successfully" .connectivity .data_flow
  | CRM =>
    exact aggregateValidation_three id
      (config.contains "client_id" && config.contains "client_secret")
      "CRM endpoint connectivity verified"
      (if config.contains "client_id" && config.contains "client_secret" then
        "CRM OAuth authentication successful"
      else "CRM OAuth credentials missing or invalid")
      "CRM data synchronization test completed" .connectivity .data_flow
  | SFTP =>
    exact aggregateValidation_three id
      (config.contains "username" &&
        (config.contains "password" || config.contains "private_key"))
      "SFTP server connectivity verified"
      (if config.contains "username" &&
          (config.contains "password" || config.contains "private_key") then
        "SFTP authentication successful"
      else "SFTP credentials missing (username and password/key required)")
      "SFTP file transfer test completed" .connectivity .data_flow
  | API =>
    exact aggregateValidation_three id
      (config.contains "api_key" || config.contains "bearer_token")
      "API endpoint connectivity verified"
      (if config.contains "api_key" || config.contains "bearer_token" then
        "API authentication successful"
      else "API authentication credentials missing")
      "API configuration validation completed" .connectivity .configuration
  | other => exact absurd rfl hty

/-- A CRM integration with a full OAuth pair, and a SIS integration
missing its API key, exercised by the C10 witness. -/
def sampleCrmIntegration : Integration :=
  ⟨"integration-1", "onboarding-1", .CRM, "Salesforce CRM",
    ["client_id", "client_secret", "endpoint"]⟩

theorem runIntegrationTests_auth_gate_witness :
    (∀ tr ∈ (runIntegrationTests sampleCrmIntegration).test_results,
      tr.test_type ≠ TestType.authentication → tr.success = true) ∧
    (runIntegrationTests sampleCrmIntegration).test_results.length = 3 ∧
    ((runIntegrationTests sampleCrmIntegration).completion_percentage = 67 ∨
      (runIntegrationTests sampleCrmIntegration).completion_percentage = 100) ∧
    (runIntegrationTests sampleCrmIntegration).overall_status ≠ OverallStatus.warning ∧
    ((runIntegrationTests sampleCrmIntegration).overall_status = OverallStatus.passed ↔
      requiredCredentialsPresent sampleCrmIntegration.type
        sampleCrmIntegration.configuration = true) :=
  runIntegrationTests_auth_gate sampleCrmIntegration (by decide)

/-! ## C2 -/

/-- Filtering an association list by a predicate that accepts every
entry with key `k` does not change the lookup of `k`. -/
lemma lookup_filter_of_key_kept (k : String) (p : String × String → Bool)
    (hp : ∀ v, p (k, v) = true) :
    ∀ m : List (String × String), List.lookup k (m.filter p) = List.lookup k m := by
  intro m
  induction m with
  | nil => rfl
  | cons kv rest ih =>
    obtain ⟨k', v'⟩ := kv
    rw [List.filter_cons]
    cases hb : (k == k') with
    | true =>
      obtain rfl : k' = k := (eq_of_beq hb).symm
      rw [hp v']
      simp [List.lookup, hb]
    | false =>
      cases hkeep : p (k', v') <;> simp [List.lookup, hb, hkeep, ih]

/-- C2 counterexample: with empty caller metadata, the persisted
metadata of `createAuditRecord` carries no `source` and no `trigger`
key at all — the enrichment adds only `timestamp`, `system_version`
and `environment`, contradicting the claimed
`{timestamp, environment, source, trigger}` envelope. -/
theorem createAuditRecord_missing_source_trigger :
    List.lookup "source"
        ((createAuditRecord "2024-01-01T00:00:00.000Z" "unknown" "development"
          ⟨"task", "task-1", "task_created", []⟩).metadata) = none ∧
    List.lookup "trigger"
        ((createAuditRecord "2024-01-01T00:00:00.000Z" "unknown" "development"
          ⟨"task", "task-1", "task_created", []⟩).metadata) = none ∧
    List.lookup "timestamp"
        ((createAuditRecord "2024-01-01T00:00:00.000Z" "unknown" "development"
          ⟨"task", "task-1", "task_created", []⟩).metadata) =
      some "2024-01-01T00:00:00.000Z" := by
  decide

/-- C2 amended: `createAuditRecord` enriches the caller metadata with
`timestamp`, `system_version` and `environment` (overriding those keys),
and passes `source`/`trigger` through exactly as the caller supplied
them (absent when the caller omitted them); `createAuditRecords`
applies the very same per-record enrichment to each batch element. -/
theorem createAuditRecord_enrichment (nowIso ver env : String)
    (record : CreateAuditRecord) :
    List.lookup "timestamp" ((createAuditRecord nowIso ver env record).metadata) = some nowIso ∧
    List.lookup "system_version" ((createAuditRecord nowIso ver env record).metadata) = some ver ∧
    List.lookup "environment" ((createAuditRecord nowIso ver env record).metadata) = some env ∧
    List.lookup "source" ((createAuditRecord nowIso ver env record).metadata) =
      List.lookup "source" record.metadata ∧
    List.lookup "trigger" ((createAuditRecord nowIso ver env record).metadata) =
      List.lookup "trigger" record.metadata ∧
    ∀ records : List CreateAuditRecord,
      createAuditRecords nowIso ver env records =
        records.map (createAuditRecord nowIso ver env) := by
  refine ⟨?_, ?_, ?_, ?_, ?_, fun records => rfl⟩
  · simp [createAuditRecord, enhanceAuditMetadata, List.lookup]
  · simp [createAuditRecord, enhanceAuditMetadata, List.lookup]
  · simp [createAuditRecord, enhanceAuditMetadata, List.lookup]
  · simp only [createAuditRecord, enhanceAuditMetadata, List.cons_append,
      List.nil_append]
    simp [List.lookup]
    exact lookup_filter_of_key_kept "source" _ (fun v => rfl) record.metadata
  · simp only [createAuditRecord, enhanceAuditMetadata, List.cons_append,
      List.nil_append]
    simp [List.lookup]
    exact lookup_filter_of_key_kept "trigger" _ (fun v => rfl) record.metadata

/-! ## C9 -/

/-- C9 counterexample: a request with `limit = 2000` (outside 1–1000)
and `offset = -1` (negative) is not refused — the route proceeds to the
query, merely dropping both filters. -/
theorem auditGET_out_of_range_not_refused :
    auditGET ⟨some 2000, some (-1)⟩ =
      AuditGetResponse.ok ⟨none, none⟩ := by
  decide

/-- C9 amended: the audit GET route never refuses a request over
`limit`/`offset` bounds; a supplied limit outside 1–1000 or a negative
supplied offset is silently ignored (the corresponding filter stays
unset) while in-range values are applied verbatim. -/
theorem auditGET_bounds (p : AuditGetParams) :
    auditGET p = AuditGetResponse.ok (auditGetFilters p) ∧
    (∀ l, p.limit = some l → (l ≤ 0 ∨ 1000 < l) → (auditGetFilters p).limit = none) ∧
    (∀ l, p.limit = some l → 0 < l → l ≤ 1000 → (auditGetFilters p).limit = some l) ∧
    (∀ o, p.offset = some o → o < 0 → (auditGetFilters p).offset = none) ∧
    (∀ o, p.offset = some o → 0 ≤ o → (auditGetFilters p).offset = some o) := by
  refine ⟨rfl, ?_, ?_, ?_, ?_⟩ <;>
    intro x hx <;>
    simp only [auditGetFilters, hx] <;>
    intros <;>
    split_ifs <;>
    first
      | rfl
      | omega

theorem auditGET_bounds_witness :
    (auditGetFilters ⟨some 2000, some (-1)⟩).limit = none ∧
    (auditGetFilters ⟨some 2000, some (-1)⟩).offset = none ∧
    (auditGetFilters ⟨some 500, some 0⟩).limit = some 500 ∧
    (auditGetFilters ⟨some 500, some 0⟩).offset = some 0 :=
  ⟨(auditGET_bounds ⟨some 2000, some (-1)⟩).2.1 2000 rfl (by norm_num),
    (auditGET_bounds ⟨some 2000, some (-1)⟩).2.2.2.1 (-1) rfl (by norm_num),
    (auditGET_bounds ⟨some 500, some 0⟩).2.2.1 500 rfl (by norm_num) (by norm_num),
    (auditGET_bounds ⟨some 500, some 0⟩).2.2.2.2 0 rfl (by norm_num)⟩

end Orchestrator
